import Mathlib

/-!
Verification of the accounting views of AcornAccounting
(src/Acorn-Accounting/accounts/views.py) against its specification.

The file embeds the data model (rows of the JournalEntry, BankSpendingEntry,
BankReceivingEntry, Transaction and Account tables), the read-side balance
engine (show_account_detail) and the write-side save and delete paths
(add_journal_entry, add_bank_entry, add_transfer_entry) as pure functions
over an explicit database state.  Amounts are integers (fixed-point decimals
scaled to a common denominator); dates are naturals (day ordinals).

The models.py and forms.py modules of the repository are not available, only
their callers in views.py are; definitions whose doc comment starts with
"Modelled from the spec:" translate those missing pieces from the words of
the specification.  Everything else is translated directly from views.py.
-/

namespace Acorn

/-- Kind of a persisted bank entry: BankSpendingEntry (journal_type CD) or
BankReceivingEntry (journal_type CR). -/
inductive BankVariant
  | spending
  | receiving
  deriving DecidableEq, Repr

/-- Accounts table row: the primary key, the bank flag marking cash accounts,
and the polarity flag consulted by flip_balance. -/
structure Account where
  pk : Nat
  bank : Bool
  flip : Bool
  deriving DecidableEq, Repr

/-- Modelled from the spec: Account.flip_balance from models.py is not under
src; per the spec an Account carries a polarity (normal-balance sign) flag
and presentation flips the sign of a displayed sum exactly when it is set. -/
def Account.flip_balance (a : Account) : Bool := a.flip

/-- Transactions table row.  A detail Transaction references its owning Entry
through exactly one of journal_entry, bankspend_entry, bankreceive_entry; the
main transaction of a bank entry carries none of the three and is referenced
from the entry side instead. -/
structure TxnRow where
  pk : Nat
  account : Nat
  balance_delta : Int
  detail : String
  journal_entry : Option Nat := none
  bankspend_entry : Option Nat := none
  bankreceive_entry : Option Nat := none
  deriving DecidableEq, Repr

/-- JournalEntry table row. -/
structure JournalEntryRow where
  pk : Nat
  date : Nat
  deriving DecidableEq, Repr

/-- BankReceivingEntry and BankSpendingEntry table row: the date plus the
one-to-one main_transaction reference. -/
structure BankEntryRow where
  pk : Nat
  date : Nat
  main_transaction : Nat
  deriving DecidableEq, Repr

/-- Committed database state: the rows of each table in insertion order plus
a fresh primary-key counter (shared across tables for simplicity; primary
keys stay unique within each table). -/
structure DB where
  journalEntries : List JournalEntryRow
  bankSpendEntries : List BankEntryRow
  bankReceiveEntries : List BankEntryRow
  txns : List TxnRow
  nextPk : Nat
  deriving DecidableEq, Repr

/-- Date of the JournalEntry referenced by the journal_entry field, when both
the reference and the entry exist. -/
def journalDate (db : DB) (t : TxnRow) : Option Nat :=
  t.journal_entry.bind (fun e =>
    (db.journalEntries.find? (fun j => j.pk == e)).map (fun j => j.date))

/-- Date of the BankSpendingEntry referenced by the bankspend_entry field. -/
def bankSpendDate (db : DB) (t : TxnRow) : Option Nat :=
  t.bankspend_entry.bind (fun e =>
    (db.bankSpendEntries.find? (fun b => b.pk == e)).map (fun b => b.date))

/-- Date of the BankReceivingEntry referenced by the bankreceive_entry field. -/
def bankReceiveDate (db : DB) (t : TxnRow) : Option Nat :=
  t.bankreceive_entry.bind (fun e =>
    (db.bankReceiveEntries.find? (fun b => b.pk == e)).map (fun b => b.date))

/-- Date of the BankSpendingEntry holding this transaction as its main
transaction (the reverse one-to-one relation bankspendingentry). -/
def mainSpendDate (db : DB) (t : TxnRow) : Option Nat :=
  (db.bankSpendEntries.find? (fun b => b.main_transaction == t.pk)).map (fun b => b.date)

/-- Date of the BankReceivingEntry holding this transaction as its main
transaction (the reverse one-to-one relation bankreceivingentry). -/
def mainReceiveDate (db : DB) (t : TxnRow) : Option Nat :=
  (db.bankReceiveEntries.find? (fun b => b.main_transaction == t.pk)).map (fun b => b.date)

/-- Modelled from the spec: Transaction.get_date from models.py is not under
src; per the spec the effective date of a Transaction is the date of its
owning Entry, whichever of the five relations provides it. -/
def get_date (db : DB) (t : TxnRow) : Option Nat :=
  (journalDate db t).orElse (fun _ =>
    (bankSpendDate db t).orElse (fun _ =>
      (bankReceiveDate db t).orElse (fun _ =>
        (mainSpendDate db t).orElse (fun _ => mainReceiveDate db t))))

/-- Stable ordered insertion by a natural key: the element goes in front of
the first element whose key is not smaller. -/
def orderedInsertKey {α : Type} (key : α → Nat) (a : α) : List α → List α
  | [] => [a]
  | b :: l => if key a ≤ key b then a :: b :: l else b :: orderedInsertKey key a l

/-- Stable ascending sort by a natural key; models the Python list sort with
a key function at line 57 and line 86 (Python sorts are stable, so elements
with equal keys keep their relative order). -/
def sortByKey {α : Type} (key : α → Nat) : List α → List α
  | [] => []
  | b :: l => orderedInsertKey key b (sortByKey key l)

theorem mem_orderedInsertKey {α : Type} (key : α → Nat) (a x : α) (l : List α) :
    x ∈ orderedInsertKey key a l ↔ x = a ∨ x ∈ l := by
  induction l with
  | nil => simp [orderedInsertKey]
  | cons b l ih =>
    by_cases h : key a ≤ key b
    · simp [orderedInsertKey, h]
    · simp only [orderedInsertKey, if_neg h, List.mem_cons, ih]
      tauto

theorem length_orderedInsertKey {α : Type} (key : α → Nat) (a : α) (l : List α) :
    (orderedInsertKey key a l).length = l.length + 1 := by
  induction l with
  | nil => rfl
  | cons b l ih =>
    by_cases h : key a ≤ key b
    · simp [orderedInsertKey, h]
    · simp [orderedInsertKey, h, ih]

theorem length_sortByKey {α : Type} (key : α → Nat) (l : List α) :
    (sortByKey key l).length = l.length := by
  induction l with
  | nil => rfl
  | cons b l ih => simp [sortByKey, length_orderedInsertKey, ih]

theorem sortByKey_ne_nil {α : Type} (key : α → Nat) (l : List α) (h : l ≠ []) :
    sortByKey key l ≠ [] := by
  intro hc
  apply h
  have := length_sortByKey key l
  rw [hc] at this
  exact List.length_eq_zero.mp this.symm

theorem pairwise_orderedInsertKey {α : Type} (key : α → Nat) (a : α) (l : List α)
    (hp : l.Pairwise (fun x y => key x ≤ key y)) :
    (orderedInsertKey key a l).Pairwise (fun x y => key x ≤ key y) := by
  induction l with
  | nil => simp [orderedInsertKey]
  | cons b l ih =>
    rcases List.pairwise_cons.mp hp with ⟨hb, hl⟩
    by_cases h : key a ≤ key b
    · simp only [orderedInsertKey, if_pos h]
      refine List.pairwise_cons.mpr ⟨?_, hp⟩
      intro c hc
      rcases List.mem_cons.mp hc with rfl | hc
      · exact h
      · exact Nat.le_trans h (hb c hc)
    · simp only [orderedInsertKey, if_neg h]
      refine List.pairwise_cons.mpr ⟨?_, ih hl⟩
      intro c hc
      rcases (mem_orderedInsertKey key a c l).mp hc with rfl | hc
      · omega
      · exact hb c hc

theorem pairwise_sortByKey {α : Type} (key : α → Nat) (l : List α) :
    (sortByKey key l).Pairwise (fun x y => key x ≤ key y) := by
  induction l with
  | nil => simp [sortByKey]
  | cons b l ih => exact pairwise_orderedInsertKey key b (sortByKey key l) ih

theorem filter_orderedInsertKey_eq {α : Type} (key : α → Nat) (a : α) (l : List α)
    (d : Nat) (h : key a = d) :
    (orderedInsertKey key a l).filter (fun x => key x == d) =
      a :: l.filter (fun x => key x == d) := by
  induction l with
  | nil => simp [orderedInsertKey, h]
  | cons b l ih =>
    by_cases hab : key a ≤ key b
    · rw [orderedInsertKey, if_pos hab, List.filter_cons, if_pos (by simp [h])]
    · have hbd : (key b == d) = false := by
        have : key b < key a := Nat.lt_of_not_le hab
        simp only [beq_eq_false_iff_ne, ne_eq]
        omega
      simp only [orderedInsertKey, if_neg hab, List.filter_cons, hbd]
      simpa [hbd] using ih

theorem filter_orderedInsertKey_ne {α : Type} (key : α → Nat) (a : α) (l : List α)
    (d : Nat) (h : key a ≠ d) :
    (orderedInsertKey key a l).filter (fun x => key x == d) =
      l.filter (fun x => key x == d) := by
  induction l with
  | nil => simp [orderedInsertKey, h]
  | cons b l ih =>
    by_cases hab : key a ≤ key b
    · simp [orderedInsertKey, hab, List.filter_cons, h]
    · simp only [orderedInsertKey, if_neg hab, List.filter_cons]
      rw [ih]

theorem filter_sortByKey {α : Type} (key : α → Nat) (l : List α) (d : Nat) :
    (sortByKey key l).filter (fun x => key x == d) = l.filter (fun x => key x == d) := by
  induction l with
  | nil => rfl
  | cons b l ih =>
    by_cases hb : key b = d
    · rw [sortByKey, filter_orderedInsertKey_eq key b _ d hb, ih, List.filter_cons,
        if_pos (by simp [hb])]
    · rw [sortByKey, filter_orderedInsertKey_ne key b _ d hb, ih, List.filter_cons,
        if_neg (by simp [hb])]

/-- Date-range test of the Q clauses at lines 50 to 55, applied to the
optional date provided by one owning-entry relation. -/
def optInRange (startdate stopdate : Nat) : Option Nat → Bool
  | none => false
  | some d => startdate ≤ d && d ≤ stopdate

/-- Union query of show_account_detail lines 50 to 56: the transactions of
the account whose owning entry, through any of the five relations, is dated
within the closed range. -/
def accountDetailQuery (db : DB) (account : Account) (startdate stopdate : Nat) : List TxnRow :=
  (db.txns.filter (fun t => t.account == account.pk)).filter (fun t =>
    optInRange startdate stopdate (journalDate db t) ||
    optInRange startdate stopdate (bankSpendDate db t) ||
    optInRange startdate stopdate (bankReceiveDate db t) ||
    optInRange startdate stopdate (mainSpendDate db t) ||
    optInRange startdate stopdate (mainReceiveDate db t))

/-- Sort key of line 57: the effective date of the transaction, defaulting to
zero (every queried transaction has an owning entry, so the default is never
consulted on query results). -/
def dateKey (db : DB) (t : TxnRow) : Nat := (get_date db t).getD 0

/-- Raw balance of the account strictly before the given date: the signed sum
of the balance_delta of every earlier transaction of the account, with no
polarity flip. -/
def rawBalanceBefore (db : DB) (account : Account) (startdate : Nat) : Int :=
  ((db.txns.filter (fun t => t.account == account.pk &&
      (match get_date db t with
       | some d => decide (d < startdate)
       | none => false))).map (fun t => t.balance_delta)).sum

/-- Modelled from the spec: Transaction.get_initial_account_balance from
models.py is not under src; per the spec the opening balance of a range is
the signed sum of the balance_delta of all earlier transactions of the
account, with the polarity flip of the Account applied once to the whole sum
for display, not per line. -/
def get_initial_account_balance (db : DB) (account : Account) (startdate : Nat) : Int :=
  if account.flip_balance then -(rawBalanceBefore db account startdate)
  else rawBalanceBefore db account startdate

/-- One transaction with the running balance the view attaches to it as
transaction.final_balance. -/
structure TxnWithBalance where
  txn : TxnRow
  final_balance : Int
  deriving DecidableEq, Repr

/-- Loop of lines 60 to 66: starting from the current end balance, add the
possibly sign-flipped delta of each transaction in order and attach the
cumulative value to the transaction. -/
def attachRunningBalances (flip : Bool) (endbalance : Int) : List TxnRow → List TxnWithBalance
  | [] => []
  | t :: ts =>
    let e := endbalance + (if flip then -1 * t.balance_delta else t.balance_delta)
    ⟨t, e⟩ :: attachRunningBalances flip e ts

/-- show_account_detail lines 46 to 68: collect the transactions of the
account that are in range with the union query, sort them by effective date,
and when at least one exists compute the start balance and attach running
balances; when none is in range the balance block is skipped. -/
def show_account_detail (db : DB) (account : Account) (startdate stopdate : Nat) :
    Option (Int × List TxnWithBalance) :=
  match sortByKey (dateKey db) (accountDetailQuery db account startdate stopdate) with
  | [] => none
  | t :: ts =>
    let startbalance := get_initial_account_balance db account startdate
    some (startbalance, attachRunningBalances account.flip_balance startbalance (t :: ts))

theorem length_attachRunningBalances (flip : Bool) (s : Int) (ts : List TxnRow) :
    (attachRunningBalances flip s ts).length = ts.length := by
  induction ts generalizing s with
  | nil => rfl
  | cons t ts ih => simp [attachRunningBalances, ih]

theorem attachRunningBalances_txns (flip : Bool) (s : Int) (ts : List TxnRow) :
    (attachRunningBalances flip s ts).map (fun x => x.txn) = ts := by
  induction ts generalizing s with
  | nil => rfl
  | cons t ts ih => simp [attachRunningBalances, ih]

theorem attachRunningBalances_get (flip : Bool) (s : Int) (ts : List TxnRow)
    (i : Nat) (h : i < (attachRunningBalances flip s ts).length) :
    ((attachRunningBalances flip s ts).get ⟨i, h⟩).final_balance =
      s + ((ts.take (i + 1)).map
        (fun t => if flip then -1 * t.balance_delta else t.balance_delta)).sum := by
  induction ts generalizing s i with
  | nil => simp [attachRunningBalances] at h
  | cons t ts ih =>
    cases i with
    | zero => simp [attachRunningBalances]
    | succ j =>
      have hlen : j < (attachRunningBalances flip
          (s + (if flip then -1 * t.balance_delta else t.balance_delta)) ts).length := by
        simpa [attachRunningBalances] using Nat.lt_of_succ_lt_succ (by
          simpa [attachRunningBalances] using h)
      calc ((attachRunningBalances flip s (t :: ts)).get ⟨j + 1, h⟩).final_balance
          = ((attachRunningBalances flip
              (s + (if flip then -1 * t.balance_delta else t.balance_delta)) ts).get
                ⟨j, hlen⟩).final_balance := rfl
        _ = s + (if flip then -1 * t.balance_delta else t.balance_delta) +
              ((ts.take (j + 1)).map
                (fun u => if flip then -1 * u.balance_delta else u.balance_delta)).sum :=
            ih _ j hlen
        _ = s + (((t :: ts).take (j + 1 + 1)).map
              (fun u => if flip then -1 * u.balance_delta else u.balance_delta)).sum := by
            simp [List.take_succ_cons, add_assoc]

theorem sum_map_neg_one_mul (l : List TxnRow) :
    (l.map (fun t => -1 * t.balance_delta)).sum =
      -((l.map (fun t => t.balance_delta)).sum) := by
  induction l with
  | nil => simp
  | cons t l ih =>
    simp only [List.map_cons, List.sum_cons, ih]
    ring

/-- C3: for an account and a closed date range with at least one in-range
transaction, the engine returns the opening balance immediately before the
range (the raw sum of all earlier deltas with the polarity flip applied once
to the whole sum) together with one running balance per in-range transaction;
each running balance is the prefix sum of the possibly flipped deltas
starting from the opening balance, which equals the polarity flip applied
once to the whole raw prefix sum, never per line. -/
theorem C3_balance_engine (db : DB) (a : Account) (s e : Nat)
    (hne : accountDetailQuery db a s e ≠ []) :
    ∃ sb out,
      show_account_detail db a s e = some (sb, out) ∧
      sb = (if a.flip_balance then -(rawBalanceBefore db a s) else rawBalanceBefore db a s) ∧
      out.map (fun x => x.txn) = sortByKey (dateKey db) (accountDetailQuery db a s e) ∧
      (∀ i (h : i < out.length),
        (out.get ⟨i, h⟩).final_balance =
          sb + (((sortByKey (dateKey db) (accountDetailQuery db a s e)).take (i + 1)).map
            (fun t => if a.flip_balance then -1 * t.balance_delta else t.balance_delta)).sum) ∧
      (∀ i (h : i < out.length),
        (out.get ⟨i, h⟩).final_balance =
          (if a.flip_balance then
            -(rawBalanceBefore db a s +
              (((sortByKey (dateKey db) (accountDetailQuery db a s e)).take (i + 1)).map
                (fun t => t.balance_delta)).sum)
           else
            rawBalanceBefore db a s +
              (((sortByKey (dateKey db) (accountDetailQuery db a s e)).take (i + 1)).map
                (fun t => t.balance_delta)).sum)) := by
  have hs : sortByKey (dateKey db) (accountDetailQuery db a s e) ≠ [] :=
    sortByKey_ne_nil _ _ hne
  rcases hq : sortByKey (dateKey db) (accountDetailQuery db a s e) with _ | ⟨t, ts⟩
  · exact absurd hq hs
  refine ⟨get_initial_account_balance db a s,
    attachRunningBalances a.flip_balance (get_initial_account_balance db a s) (t :: ts),
    ?_, ?_, ?_, ?_, ?_⟩
  · unfold show_account_detail
    rw [hq]
  · rfl
  · rw [attachRunningBalances_txns]
  · intro i h
    exact attachRunningBalances_get a.flip_balance _ (t :: ts) i h
  · intro i h
    have h4 := attachRunningBalances_get a.flip_balance
      (get_initial_account_balance db a s) (t :: ts) i h
    rw [h4]
    cases hfb : a.flip_balance with
    | false =>
      have hfb2 : a.flip = false := hfb
      simp [get_initial_account_balance, Account.flip_balance, hfb, hfb2]
    | true =>
      have hfb2 : a.flip = true := hfb
      simp only [get_initial_account_balance, Account.flip_balance, hfb, hfb2, if_true]
      rw [sum_map_neg_one_mul]
      ring

/-- Three journal entries on three dates with three transactions of one
account, matching the range scenario of the specification. -/
def dbBal : DB :=
  { journalEntries := [⟨1, 3⟩, ⟨2, 7⟩, ⟨3, 20⟩],
    bankSpendEntries := [],
    bankReceiveEntries := [],
    txns :=
      [{ pk := 10, account := 1, balance_delta := 100, detail := "open", journal_entry := some 1 },
       { pk := 11, account := 1, balance_delta := -30, detail := "mid", journal_entry := some 2 },
       { pk := 12, account := 1, balance_delta := 20, detail := "late", journal_entry := some 3 }],
    nextPk := 13 }

/-- Ordinary debit-normal account holding the transactions of dbBal. -/
def acctBal : Account := { pk := 1, bank := false, flip := false }

theorem C3_balance_engine_witness :
    ∃ sb out,
      show_account_detail dbBal acctBal 5 15 = some (sb, out) ∧
      sb = (if acctBal.flip_balance then -(rawBalanceBefore dbBal acctBal 5)
            else rawBalanceBefore dbBal acctBal 5) ∧
      out.map (fun x => x.txn) = sortByKey (dateKey dbBal) (accountDetailQuery dbBal acctBal 5 15) ∧
      (∀ i (h : i < out.length),
        (out.get ⟨i, h⟩).final_balance =
          sb + (((sortByKey (dateKey dbBal) (accountDetailQuery dbBal acctBal 5 15)).take
              (i + 1)).map
            (fun t => if acctBal.flip_balance then -1 * t.balance_delta
              else t.balance_delta)).sum) ∧
      (∀ i (h : i < out.length),
        (out.get ⟨i, h⟩).final_balance =
          (if acctBal.flip_balance then
            -(rawBalanceBefore dbBal acctBal 5 +
              (((sortByKey (dateKey dbBal) (accountDetailQuery dbBal acctBal 5 15)).take
                  (i + 1)).map
                (fun t => t.balance_delta)).sum)
           else
            rawBalanceBefore dbBal acctBal 5 +
              (((sortByKey (dateKey dbBal) (accountDetailQuery dbBal acctBal 5 15)).take
                  (i + 1)).map
                (fun t => t.balance_delta)).sum)) :=
  C3_balance_engine dbBal acctBal 5 15 (by decide)

theorem pairwise_filter_of_pairwise {α : Type} (R : α → α → Prop) (p : α → Bool)
    (l : List α) (h : l.Pairwise R) : (l.filter p).Pairwise R :=
  List.Pairwise.sublist (List.filter_sublist l) h

theorem pairwise_lex_of_sorted_stable (key : TxnRow → Nat) (l : List TxnRow)
    (hs : l.Pairwise (fun t u => key t ≤ key u))
    (hf : ∀ d, (l.filter (fun t => key t == d)).Pairwise (fun t u => t.pk < u.pk)) :
    l.Pairwise (fun t u => key t < key u ∨ (key t = key u ∧ t.pk < u.pk)) := by
  induction l with
  | nil => exact List.Pairwise.nil
  | cons a l ih =>
    rcases List.pairwise_cons.mp hs with ⟨ha, hl⟩
    refine List.pairwise_cons.mpr ⟨?_, ih hl ?_⟩
    · intro b hb
      rcases Nat.lt_or_ge (key a) (key b) with h | h
      · exact Or.inl h
      · have heq : key a = key b := Nat.le_antisymm (ha b hb) h
        have hfa := hf (key a)
        rw [List.filter_cons, if_pos (by simp)] at hfa
        rcases List.pairwise_cons.mp hfa with ⟨hpk, _⟩
        have hbmem : b ∈ List.filter (fun t => key t == key a) l :=
          List.mem_filter.mpr ⟨hb, by rw [heq]; simp⟩
        exact Or.inr ⟨heq, hpk b hbmem⟩
    · intro d
      have hfd := hf d
      rw [List.filter_cons] at hfd
      by_cases hkey : (key a == d) = true
      · rw [if_pos hkey] at hfd
        exact (List.pairwise_cons.mp hfd).2
      · rw [if_neg hkey] at hfd
        exact hfd

/-- C7: the transactions collected for an account and range are sorted
ascending by owning-entry date; when the stored table is in primary-key
(insertion) order, equal-date runs of the output keep that order, so the
whole output is sorted by the lexicographic date-then-pk key; the equal-date
slice of the output is exactly the equal-date slice of the query result in
stored order; and recomputing the account activity over the same committed
state with the same range yields identical results. -/
theorem C7_sorted_stable_deterministic (db : DB) (a : Account) (s e : Nat)
    (hpk : db.txns.Pairwise (fun t u => t.pk < u.pk)) :
    (sortByKey (dateKey db) (accountDetailQuery db a s e)).Pairwise
      (fun t u => dateKey db t ≤ dateKey db u) ∧
    (∀ d : Nat,
      (sortByKey (dateKey db) (accountDetailQuery db a s e)).filter
          (fun t => dateKey db t == d) =
        (accountDetailQuery db a s e).filter (fun t => dateKey db t == d)) ∧
    (sortByKey (dateKey db) (accountDetailQuery db a s e)).Pairwise
      (fun t u => dateKey db t < dateKey db u ∨
        (dateKey db t = dateKey db u ∧ t.pk < u.pk)) ∧
    show_account_detail db a s e = show_account_detail db a s e := by
  have hsorted := pairwise_sortByKey (dateKey db) (accountDetailQuery db a s e)
  have hstable := fun d => filter_sortByKey (dateKey db) (accountDetailQuery db a s e) d
  refine ⟨hsorted, hstable, ?_, rfl⟩
  refine pairwise_lex_of_sorted_stable (dateKey db) _ hsorted ?_
  intro d
  rw [hstable d]
  refine pairwise_filter_of_pairwise _ _ _ ?_
  unfold accountDetailQuery
  exact pairwise_filter_of_pairwise _ _ _ (pairwise_filter_of_pairwise _ _ _ hpk)

theorem C7_sorted_stable_deterministic_witness :
    (sortByKey (dateKey dbBal) (accountDetailQuery dbBal acctBal 0 30)).Pairwise
      (fun t u => dateKey dbBal t ≤ dateKey dbBal u) ∧
    (∀ d : Nat,
      (sortByKey (dateKey dbBal) (accountDetailQuery dbBal acctBal 0 30)).filter
          (fun t => dateKey dbBal t == d) =
        (accountDetailQuery dbBal acctBal 0 30).filter (fun t => dateKey dbBal t == d)) ∧
    (sortByKey (dateKey dbBal) (accountDetailQuery dbBal acctBal 0 30)).Pairwise
      (fun t u => dateKey dbBal t < dateKey dbBal u ∨
        (dateKey dbBal t = dateKey dbBal u ∧ t.pk < u.pk)) ∧
    show_account_detail dbBal acctBal 0 30 = show_account_detail dbBal acctBal 0 30 :=
  C7_sorted_stable_deterministic dbBal acctBal 0 30 (by decide)

/-- Python identity comparisons of add_journal_entry lines 139 to 143 happen
between the value bound to the instance attribute of the formset (a
JournalEntry model instance) and formset class objects; this type models that
universe of objects. -/
inductive PyObj
  | journalEntryInstance (pk : Option Nat)
  | transactionFormSetClass
  | bankReceivingTransactionFormSetClass
  deriving DecidableEq, Repr

/-- Python object identity between the modelled objects: a model instance is
never the same object as a class object, and distinct classes are distinct
objects. -/
def pyIs (a b : PyObj) : Bool := a == b

/-- One bound form of a transaction formset as submitted: the primary key of
the bound instance when the form edits an existing row (none for an extra
form creating a new row), the cleaned field values, and the Django flags the
save loop consults (has_changed and membership in deleted_forms). -/
structure TxnFormData where
  instancePk : Option Nat
  account : Nat
  balance_delta : Int
  detail : String
  changed : Bool
  markedDelete : Bool
  deriving DecidableEq, Repr

/-- Body of the save loop of add_journal_entry lines 139 to 146, acting on
the in-memory instance row of one surviving form: three branches compare
transaction_formset.instance, which holds the JournalEntry object, against
formset classes with the Python identity operator, the second and the third
branch both against BankReceivingTransactionFormSet; afterwards
balance_delta is overwritten with the cleaned value and the instance is
saved. -/
def journalLoopBody (entryPkVal : Nat) (f : TxnFormData) (row : TxnRow) : TxnRow :=
  let row1 :=
    if pyIs (PyObj.journalEntryInstance (some entryPkVal)) PyObj.transactionFormSetClass then
      { row with journal_entry := some entryPkVal }
    else if pyIs (PyObj.journalEntryInstance (some entryPkVal))
        PyObj.bankReceivingTransactionFormSetClass then
      { row with bankspend_entry := some entryPkVal }
    else if pyIs (PyObj.journalEntryInstance (some entryPkVal))
        PyObj.bankReceivingTransactionFormSetClass then
      { row with bankreceive_entry := some entryPkVal }
    else row
  { row1 with balance_delta := f.balance_delta }

/-- Error taxonomy of the entry validator. -/
inductive ValidationError
  | UnbalancedEntryError
  | EmptyEntryError
  | NoDetailLinesError
  | SameAccountTransferError
  deriving DecidableEq, Repr

/-- Outcome of a POST Submit: the primary key of the saved entry, or the
validation error the submission was rejected with. -/
inductive SubmitResult
  | saved (entryPk : Nat)
  | rejected (err : ValidationError)
  deriving DecidableEq, Repr

/-- Surviving forms of a formset submission: the forms not marked for
deletion. -/
def surviving (fs : List TxnFormData) : List TxnFormData :=
  fs.filter (fun f => !f.markedDelete)

/-- Modelled from the spec: TransactionFormSet.clean from forms.py is not
under src; per the spec a GeneralJournalEntry submission is rejected with
UnbalancedEntryError unless the signed sum of the surviving lines is exactly
zero, and rejected with EmptyEntryError when fewer than two surviving lines
remain. -/
def transactionFormSetClean (fs : List TxnFormData) : Option ValidationError :=
  if ((surviving fs).map (fun f => f.balance_delta)).sum ≠ 0 then
    some ValidationError.UnbalancedEntryError
  else if (surviving fs).length < 2 then some ValidationError.EmptyEntryError
  else none

/-- Row update in place, an SQL UPDATE: the row with the matching primary key
is replaced, list order is kept. -/
def updateRow (rows : List TxnRow) (row : TxnRow) : List TxnRow :=
  rows.map (fun r => if r.pk == row.pk then row else r)

/-- Instance bound to a journal transaction form at save time: an existing
row fetched by primary key with the cleaned account and detail applied by
form.save with commit=False, or a fresh row whose journal_entry foreign key
is set by save_new of the inline formset. -/
def journalFormInstance (db : DB) (entryPkVal : Nat) (f : TxnFormData) : TxnRow :=
  match f.instancePk with
  | some pk =>
    match db.txns.find? (fun r => r.pk == pk) with
    | some r => { r with account := f.account, detail := f.detail }
    | none => { pk := pk, account := f.account, balance_delta := 0, detail := f.detail }
  | none =>
    { pk := db.nextPk, account := f.account, balance_delta := 0, detail := f.detail,
      journal_entry := some entryPkVal }

/-- Save loop of add_journal_entry lines 136 to 146: formset.save with
commit=False collects the forms marked for deletion into deleted_objects but
deletes nothing, and the view never processes deleted_objects, so the rows of
deleted forms stay in the table untouched; every valid, changed form not
marked for deletion runs through the branch body and its instance is
saved. -/
def saveJournalForms (entryPkVal : Nat) : DB → List TxnFormData → DB
  | db, [] => db
  | db, f :: fs =>
    if f.changed && !f.markedDelete then
      let row := journalLoopBody entryPkVal f (journalFormInstance db entryPkVal f)
      match f.instancePk with
      | some _ => saveJournalForms entryPkVal { db with txns := updateRow db.txns row } fs
      | none =>
        saveJournalForms entryPkVal
          { db with txns := db.txns ++ [row], nextPk := db.nextPk + 1 } fs
    else saveJournalForms entryPkVal db fs

/-- Cleaned payload of the JournalEntryForm. -/
structure JournalEntryFormData where
  date : Nat
  deriving DecidableEq, Repr

/-- POST Submit branch of add_journal_entry lines 127 to 148: after the entry
form validates, entry_form.save with commit=False writes nothing; only once
the transaction formset validates is the entry written and the save loop run,
so a rejected submission leaves the database untouched. -/
def add_journal_entry_submit (db : DB) (journal_id : Option Nat)
    (ef : JournalEntryFormData) (fs : List TxnFormData) : DB × SubmitResult :=
  match transactionFormSetClean fs with
  | some err => (db, SubmitResult.rejected err)
  | none =>
    match journal_id with
    | some pk =>
      let db1 := { db with journalEntries :=
        db.journalEntries.map (fun j => if j.pk == pk then { j with date := ef.date } else j) }
      (saveJournalForms pk db1 fs, SubmitResult.saved pk)
    | none =>
      let pk := db.nextPk
      let db1 := { db with
        journalEntries := db.journalEntries ++ [{ pk := pk, date := ef.date }],
        nextPk := db.nextPk + 1 }
      (saveJournalForms pk db1 fs, SubmitResult.saved pk)

/-- Sum of the balance_delta of every Transaction belonging to the given
journal entry. -/
def journalEntrySum (db : DB) (pk : Nat) : Int :=
  ((db.txns.filter (fun t => t.journal_entry == some pk)).map (fun t => t.balance_delta)).sum

/-- C4: a GeneralJournalEntry submission whose surviving lines sum to a
nonzero value is rejected with UnbalancedEntryError and the database is
returned exactly as it was: validation happens before any write. -/
theorem C4_unbalanced_rejected_no_write (db : DB) (journal_id : Option Nat)
    (ef : JournalEntryFormData) (fs : List TxnFormData)
    (h : ((surviving fs).map (fun f => f.balance_delta)).sum ≠ 0) :
    add_journal_entry_submit db journal_id ef fs =
      (db, SubmitResult.rejected ValidationError.UnbalancedEntryError) := by
  unfold add_journal_entry_submit transactionFormSetClean
  rw [if_pos h]

/-- Empty database state. -/
def dbEmpty : DB :=
  { journalEntries := [], bankSpendEntries := [], bankReceiveEntries := [], txns := [],
    nextPk := 1 }

/-- Two fresh journal lines summing to 1 instead of 0. -/
def unbalancedForms : List TxnFormData :=
  [{ instancePk := none, account := 1, balance_delta := 5, detail := "x", changed := true,
     markedDelete := false },
   { instancePk := none, account := 2, balance_delta := -4, detail := "y", changed := true,
     markedDelete := false }]

theorem C4_unbalanced_rejected_no_write_witness :
    add_journal_entry_submit dbEmpty none ⟨7⟩ unbalancedForms =
      (dbEmpty, SubmitResult.rejected ValidationError.UnbalancedEntryError) :=
  C4_unbalanced_rejected_no_write dbEmpty none ⟨7⟩ unbalancedForms (by decide)

/-- Journal entry 1 holding three lines that sum to zero, before an update
that deletes one line while rebalancing the survivors. -/
def dbC1 : DB :=
  { journalEntries := [{ pk := 1, date := 10 }],
    bankSpendEntries := [], bankReceiveEntries := [],
    txns :=
      [{ pk := 11, account := 1, balance_delta := 100, detail := "a", journal_entry := some 1 },
       { pk := 12, account := 2, balance_delta := -70, detail := "b", journal_entry := some 1 },
       { pk := 13, account := 3, balance_delta := -30, detail := "c", journal_entry := some 1 }],
    nextPk := 14 }

/-- Update submission for dbC1: the third line is marked for deletion and the
second line is changed so that the surviving lines still balance. -/
def formsC1 : List TxnFormData :=
  [{ instancePk := some 11, account := 1, balance_delta := 100, detail := "a", changed := false,
     markedDelete := false },
   { instancePk := some 12, account := 2, balance_delta := -100, detail := "b", changed := true,
     markedDelete := false },
   { instancePk := some 13, account := 3, balance_delta := -30, detail := "c", changed := false,
     markedDelete := true }]

/-- C1 evaluated at the failing input: the surviving lines of the update sum
to zero so the validator accepts and the view saves, but the view never
deletes the row of the form marked for deletion, so after the update the
transactions of entry 1 sum to -30 rather than 0: the zero-sum invariant does
not survive a partial-delete operation. -/
theorem C1_partial_delete_leaves_unbalanced :
    transactionFormSetClean formsC1 = none ∧
    (add_journal_entry_submit dbC1 (some 1) ⟨10⟩ formsC1).2 = SubmitResult.saved 1 ∧
    journalEntrySum (add_journal_entry_submit dbC1 (some 1) ⟨10⟩ formsC1).1 1 = -30 ∧
    journalEntrySum (add_journal_entry_submit dbC1 (some 1) ⟨10⟩ formsC1).1 1 ≠ 0 := by
  decide

/-- Cleaned payload of BankReceivingForm and BankSpendingForm: the selected
bank account, the UI amount (a non-negative magnitude), the memo and the
date. -/
structure BankEntryFormData where
  account : Nat
  amount : Int
  memo : String
  date : Nat
  deriving DecidableEq, Repr

/-- Modelled from the spec: clean_amount of the bank entry forms from
forms.py is not under src; per the spec the UI amount is a non-negative
magnitude and the validator derives the sign of the main transaction from the
variant so that it equals the negation of the detail sum: a spending entry
keeps the positive magnitude (its detail lines are flipped negative by the
save loop) and a receiving entry negates it (its detail lines stay
positive). -/
def cleanedMainAmount (v : BankVariant) (amount : Int) : Int :=
  match v with
  | BankVariant.spending => amount
  | BankVariant.receiving => -amount

/-- Modelled from the spec: clean of the bank transaction formsets from
forms.py is not under src (the view wires entry_form into the formset for
exactly this check); per the spec the submission is rejected with
NoDetailLinesError when no surviving detail line remains, and the surviving
detail magnitudes must sum to the entry amount so that the main transaction
is the negation of the detail sum by construction. -/
def bankFormSetClean (amount : Int) (fs : List TxnFormData) : Option ValidationError :=
  if (surviving fs).length = 0 then some ValidationError.NoDetailLinesError
  else if ((surviving fs).map (fun f => f.balance_delta)).sum ≠ amount then
    some ValidationError.UnbalancedEntryError
  else none

/-- Branch body of the bank save loop lines 207 to 214: the identity tests
compare the class EntryTypeForm against the classes BankSpendingForm and
BankReceivingForm, which is exactly a test of the variant; a spending detail
line references bankspend_entry and stores the negated cleaned amount, a
receiving detail line references bankreceive_entry and stores the cleaned
amount unchanged. -/
def bankLoopBody (v : BankVariant) (entryPkVal : Nat) (f : TxnFormData) (row : TxnRow) : TxnRow :=
  match v with
  | BankVariant.spending =>
    { row with bankspend_entry := some entryPkVal, balance_delta := -1 * f.balance_delta }
  | BankVariant.receiving =>
    { row with bankreceive_entry := some entryPkVal, balance_delta := f.balance_delta }

/-- Entry table of the given bank variant. -/
def bankEntries (db : DB) (v : BankVariant) : List BankEntryRow :=
  match v with
  | BankVariant.spending => db.bankSpendEntries
  | BankVariant.receiving => db.bankReceiveEntries

/-- Instance bound to a bank detail form at save time, as journalFormInstance
but with the variant foreign key set on fresh rows by save_new. -/
def bankFormInstance (db : DB) (v : BankVariant) (entryPkVal : Nat) (f : TxnFormData) : TxnRow :=
  match f.instancePk with
  | some pk =>
    match db.txns.find? (fun r => r.pk == pk) with
    | some r => { r with account := f.account, detail := f.detail }
    | none => { pk := pk, account := f.account, balance_delta := 0, detail := f.detail }
  | none =>
    match v with
    | BankVariant.spending =>
      { pk := db.nextPk, account := f.account, balance_delta := 0, detail := f.detail,
        bankspend_entry := some entryPkVal }
    | BankVariant.receiving =>
      { pk := db.nextPk, account := f.account, balance_delta := 0, detail := f.detail,
        bankreceive_entry := some entryPkVal }

/-- Save loop of add_bank_entry lines 205 to 214: as in the journal loop,
forms marked for deletion are skipped and their rows are never deleted; each
valid, changed, surviving form runs through the branch body and is saved. -/
def saveBankForms (v : BankVariant) (entryPkVal : Nat) : DB → List TxnFormData → DB
  | db, [] => db
  | db, f :: fs =>
    if f.changed && !f.markedDelete then
      let row := bankLoopBody v entryPkVal f (bankFormInstance db v entryPkVal f)
      match f.instancePk with
      | some _ => saveBankForms v entryPkVal { db with txns := updateRow db.txns row } fs
      | none =>
        saveBankForms v entryPkVal
          { db with txns := db.txns ++ [row], nextPk := db.nextPk + 1 } fs
    else saveBankForms v entryPkVal db fs

/-- POST Submit branch of add_bank_entry lines 188 to 217: once the entry
form and the formset validate, the main transaction is updated in place (or
created together with a fresh entry) with the cleaned account, the cleaned
amount and the memo, the entry is saved, and the detail loop runs. -/
def add_bank_entry_submit (db : DB) (v : BankVariant) (journal_id : Option Nat)
    (ef : BankEntryFormData) (fs : List TxnFormData) : DB × SubmitResult :=
  match bankFormSetClean ef.amount fs with
  | some err => (db, SubmitResult.rejected err)
  | none =>
    match journal_id.bind (fun epk => (bankEntries db v).find? (fun b => b.pk == epk)) with
    | some be =>
      let mainRow : TxnRow :=
        { pk := be.main_transaction, account := ef.account,
          balance_delta := cleanedMainAmount v ef.amount, detail := ef.memo }
      let db1 := { db with txns := updateRow db.txns mainRow }
      let touchDate : BankEntryRow → BankEntryRow := fun b =>
        if b.pk == be.pk then { b with date := ef.date } else b
      let db2 :=
        match v with
        | BankVariant.spending =>
          { db1 with bankSpendEntries := db1.bankSpendEntries.map touchDate }
        | BankVariant.receiving =>
          { db1 with bankReceiveEntries := db1.bankReceiveEntries.map touchDate }
      (saveBankForms v be.pk db2 fs, SubmitResult.saved be.pk)
    | none =>
      let newMain : TxnRow :=
        { pk := db.nextPk, account := ef.account,
          balance_delta := cleanedMainAmount v ef.amount, detail := ef.memo }
      let newEntry : BankEntryRow :=
        { pk := db.nextPk + 1, date := ef.date, main_transaction := db.nextPk }
      let db1 :=
        match v with
        | BankVariant.spending =>
          { db with
            txns := db.txns ++ [newMain],
            bankSpendEntries := db.bankSpendEntries ++ [newEntry],
            nextPk := db.nextPk + 2 }
        | BankVariant.receiving =>
          { db with
            txns := db.txns ++ [newMain],
            bankReceiveEntries := db.bankReceiveEntries ++ [newEntry],
            nextPk := db.nextPk + 2 }
      (saveBankForms v (db.nextPk + 1) db1 fs, SubmitResult.saved (db.nextPk + 1))

/-- Main transaction balance_delta of a bank entry, when the entry and its
main transaction exist. -/
def mainTransactionDelta (db : DB) (v : BankVariant) (epk : Nat) : Option Int :=
  ((bankEntries db v).find? (fun b => b.pk == epk)).bind (fun be =>
    (db.txns.find? (fun r => r.pk == be.main_transaction)).map (fun r => r.balance_delta))

/-- Sum of the balance_delta of the detail transactions of a bank entry. -/
def bankDetailSum (db : DB) (v : BankVariant) (epk : Nat) : Int :=
  match v with
  | BankVariant.spending =>
    ((db.txns.filter (fun t => t.bankspend_entry == some epk)).map
      (fun t => t.balance_delta)).sum
  | BankVariant.receiving =>
    ((db.txns.filter (fun t => t.bankreceive_entry == some epk)).map
      (fun t => t.balance_delta)).sum

/-- Bank spending entry 1 with main transaction 100 and details -70, -30,
balanced, before an update deleting one detail line. -/
def dbC2 : DB :=
  { journalEntries := [],
    bankSpendEntries := [{ pk := 1, date := 10, main_transaction := 20 }],
    bankReceiveEntries := [],
    txns :=
      [{ pk := 20, account := 1, balance_delta := 100, detail := "m" },
       { pk := 21, account := 2, balance_delta := -70, detail := "d1",
         bankspend_entry := some 1 },
       { pk := 22, account := 3, balance_delta := -30, detail := "d2",
         bankspend_entry := some 1 }],
    nextPk := 23 }

/-- Entry form of the failing update: amount 100, same bank account. -/
def efC2 : BankEntryFormData := { account := 1, amount := 100, memo := "m", date := 10 }

/-- Detail forms of the failing update: the first detail grows to 100, the
second is marked for deletion, so the surviving magnitudes match the entry
amount. -/
def formsC2 : List TxnFormData :=
  [{ instancePk := some 21, account := 2, balance_delta := 100, detail := "d1", changed := true,
     markedDelete := false },
   { instancePk := some 22, account := 3, balance_delta := 30, detail := "d2", changed := false,
     markedDelete := true }]

/-- C2 evaluated at the failing input: the update validates (surviving
magnitudes sum to the entry amount) and saves, but the deleted detail row
stays in the table, so afterwards the main transaction holds 100 while the
negated detail sum is 130: the main-transaction invariant does not survive a
save that removes a detail line. -/
theorem C2_partial_delete_breaks_main_invariant :
    bankFormSetClean efC2.amount formsC2 = none ∧
    (add_bank_entry_submit dbC2 BankVariant.spending (some 1) efC2 formsC2).2 =
      SubmitResult.saved 1 ∧
    mainTransactionDelta (add_bank_entry_submit dbC2 BankVariant.spending (some 1) efC2
      formsC2).1 BankVariant.spending 1 = some 100 ∧
    bankDetailSum (add_bank_entry_submit dbC2 BankVariant.spending (some 1) efC2
      formsC2).1 BankVariant.spending 1 = -130 ∧
    mainTransactionDelta (add_bank_entry_submit dbC2 BankVariant.spending (some 1) efC2
        formsC2).1 BankVariant.spending 1 ≠
      some (-(bankDetailSum (add_bank_entry_submit dbC2 BankVariant.spending (some 1) efC2
        formsC2).1 BankVariant.spending 1)) := by
  decide

/-- C5: the UI amount of a surviving detail line is a non-negative magnitude
and the variant alone determines the stored sign: a BankSpendingEntry line is
saved with the negated submitted amount (never positive), a
BankReceivingEntry line with the submitted amount unchanged (never
negative). -/
theorem C5_detail_sign_from_variant (entryPkVal : Nat) (f : TxnFormData) (row : TxnRow)
    (h : 0 ≤ f.balance_delta) :
    (bankLoopBody BankVariant.spending entryPkVal f row).balance_delta = -f.balance_delta ∧
    (bankLoopBody BankVariant.spending entryPkVal f row).balance_delta ≤ 0 ∧
    (bankLoopBody BankVariant.receiving entryPkVal f row).balance_delta = f.balance_delta ∧
    0 ≤ (bankLoopBody BankVariant.receiving entryPkVal f row).balance_delta := by
  refine ⟨?_, ?_, rfl, h⟩
  · simp [bankLoopBody]
  · simp only [bankLoopBody]
    omega

/-- Blank transaction row for concrete evaluations. -/
def rowZero : TxnRow := { pk := 0, account := 0, balance_delta := 0, detail := "" }

/-- Detail line of 50 against a non-bank account. -/
def fC5 : TxnFormData :=
  { instancePk := none, account := 2, balance_delta := 50, detail := "supplies", changed := true,
    markedDelete := false }

theorem C5_detail_sign_from_variant_witness :
    (bankLoopBody BankVariant.spending 1 fC5 rowZero).balance_delta = -fC5.balance_delta ∧
    (bankLoopBody BankVariant.spending 1 fC5 rowZero).balance_delta ≤ 0 ∧
    (bankLoopBody BankVariant.receiving 1 fC5 rowZero).balance_delta = fC5.balance_delta ∧
    0 ≤ (bankLoopBody BankVariant.receiving 1 fC5 rowZero).balance_delta :=
  C5_detail_sign_from_variant 1 fC5 rowZero (by decide)

/-- One cleaned form of the transfer formset plus the has_changed flag the
loop consults. -/
structure TransferFormData where
  source : Nat
  destination : Nat
  amount : Int
  detail : String
  changed : Bool
  deriving DecidableEq, Repr

/-- Modelled from the spec: TransferFormSet validation from forms.py is not
under src; per the spec a transfer line requires a positive amount and
distinct source and destination accounts. -/
def transferFormValid (f : TransferFormData) : Bool :=
  decide (0 < f.amount) && f.source != f.destination

/-- Pair of transactions created for one transfer line at lines 258 to 263: a
debit row on the source account holding the negated amount and a credit row
on the destination account holding the amount, both referencing the journal
entry and both carrying the detail of the line. -/
def transferPair (entryPkVal pkDebit pkCredit : Nat) (f : TransferFormData) : TxnRow × TxnRow :=
  ({ pk := pkDebit, account := f.source, balance_delta := -1 * f.amount, detail := f.detail,
     journal_entry := some entryPkVal },
   { pk := pkCredit, account := f.destination, balance_delta := f.amount, detail := f.detail,
     journal_entry := some entryPkVal })

/-- Save loop of add_transfer_entry lines 256 to 265: each valid, changed
form creates and saves its debit and credit rows, in form order. -/
def saveTransferForms (entryPkVal : Nat) : DB → List TransferFormData → DB
  | db, [] => db
  | db, f :: fs =>
    if transferFormValid f && f.changed then
      let pr := transferPair entryPkVal db.nextPk (db.nextPk + 1) f
      saveTransferForms entryPkVal
        { db with txns := db.txns ++ [pr.1, pr.2], nextPk := db.nextPk + 2 } fs
    else saveTransferForms entryPkVal db fs

/-- POST branch of add_transfer_entry lines 249 to 268: a fresh JournalEntry
is saved once the forms validate, then the transfer loop runs; otherwise
nothing is written. -/
def add_transfer_entry_submit (db : DB) (ef : JournalEntryFormData)
    (fs : List TransferFormData) : DB × SubmitResult :=
  if fs.all transferFormValid then
    let epk := db.nextPk
    let db1 := { db with
      journalEntries := db.journalEntries ++ [{ pk := epk, date := ef.date }],
      nextPk := db.nextPk + 1 }
    (saveTransferForms epk db1 fs, SubmitResult.saved epk)
  else (db, SubmitResult.rejected ValidationError.SameAccountTransferError)

/-- Property of the two rows created for one transfer line: the negated
amount on the source account, the amount on the destination account, the
shared detail and owning entry, and a zero pair sum. -/
def isTransferPairFor (entryPkVal : Nat) (f : TransferFormData) (a b : TxnRow) : Prop :=
  a.account = f.source ∧ a.balance_delta = -f.amount ∧ a.detail = f.detail ∧
  a.journal_entry = some entryPkVal ∧
  b.account = f.destination ∧ b.balance_delta = f.amount ∧ b.detail = f.detail ∧
  b.journal_entry = some entryPkVal ∧
  a.balance_delta + b.balance_delta = 0

/-- The new rows consist of exactly one debit-credit pair per transfer form,
in form order. -/
def pairedWith (entryPkVal : Nat) : List TransferFormData → List TxnRow → Prop
  | [], [] => True
  | f :: fs, a :: b :: rows => isTransferPairFor entryPkVal f a b ∧ pairedWith entryPkVal fs rows
  | _, _ => False

theorem saveTransferForms_spec (entryPkVal : Nat) (db : DB) (fs : List TransferFormData)
    (h : ∀ f ∈ fs, transferFormValid f = true ∧ f.changed = true) :
    ∃ newRows,
      (saveTransferForms entryPkVal db fs).txns = db.txns ++ newRows ∧
      (saveTransferForms entryPkVal db fs).journalEntries = db.journalEntries ∧
      pairedWith entryPkVal fs newRows := by
  induction fs generalizing db with
  | nil => exact ⟨[], by simp [saveTransferForms], by simp [saveTransferForms], trivial⟩
  | cons f fs ih =>
    rcases h f (List.mem_cons_self f fs) with ⟨hv, hc⟩
    have hcond : (transferFormValid f && f.changed) = true := by rw [hv, hc]; rfl
    rcases ih { db with
        txns := db.txns ++ [(transferPair entryPkVal db.nextPk (db.nextPk + 1) f).1,
          (transferPair entryPkVal db.nextPk (db.nextPk + 1) f).2],
        nextPk := db.nextPk + 2 }
      (fun g hg => h g (List.mem_cons_of_mem f hg)) with ⟨rows, hrows, hje, hp⟩
    refine ⟨(transferPair entryPkVal db.nextPk (db.nextPk + 1) f).1 ::
      (transferPair entryPkVal db.nextPk (db.nextPk + 1) f).2 :: rows, ?_, ?_, ?_⟩
    · rw [saveTransferForms, if_pos hcond, hrows]
      simp
    · rw [saveTransferForms, if_pos hcond, hje]
    · exact ⟨⟨rfl, by simp [transferPair], rfl, rfl, rfl, rfl, rfl, rfl,
        by simp [transferPair]⟩, hp⟩

/-- C6: a transfer submission whose forms all validate and carry data is
persisted as a fresh GeneralJournalEntry together with, for each submitted
line, exactly two Transactions: one holding the negated amount on the source
account and one holding the amount on the destination account, both carrying
the detail of the line and referencing the new entry, their sum being
zero. -/
theorem C6_transfer_creates_offsetting_pairs (db : DB) (ef : JournalEntryFormData)
    (fs : List TransferFormData)
    (h : ∀ f ∈ fs, transferFormValid f = true ∧ f.changed = true) :
    ∃ epk db2 newRows,
      add_transfer_entry_submit db ef fs = (db2, SubmitResult.saved epk) ∧
      db2.txns = db.txns ++ newRows ∧
      db2.journalEntries = db.journalEntries ++ [{ pk := epk, date := ef.date }] ∧
      pairedWith epk fs newRows := by
  have hall : fs.all transferFormValid = true := by
    rw [List.all_eq_true]
    intro f hf
    exact (h f hf).1
  rcases saveTransferForms_spec db.nextPk
    { db with
      journalEntries := db.journalEntries ++ [{ pk := db.nextPk, date := ef.date }],
      nextPk := db.nextPk + 1 } fs h with ⟨rows, hrows, hje, hp⟩
  refine ⟨db.nextPk, _, rows, ?_, hrows, ?_, hp⟩
  · unfold add_transfer_entry_submit
    rw [if_pos hall]
  · rw [hje]

/-- One transfer line moving 100 between two distinct accounts. -/
def transferFormsW : List TransferFormData :=
  [{ source := 1, destination := 2, amount := 100, detail := "rent", changed := true }]

theorem C6_transfer_creates_offsetting_pairs_witness :
    ∃ epk db2 newRows,
      add_transfer_entry_submit dbEmpty ⟨15⟩ transferFormsW = (db2, SubmitResult.saved epk) ∧
      db2.txns = dbEmpty.txns ++ newRows ∧
      db2.journalEntries = dbEmpty.journalEntries ++ [{ pk := epk, date := 15 }] ∧
      pairedWith epk transferFormsW newRows :=
  C6_transfer_creates_offsetting_pairs dbEmpty ⟨15⟩ transferFormsW (by decide)

/-- Modelled from the spec: the delete call of add_journal_entry line 151
cascades (models.py is not under src); per the spec deleting an Entry deletes
all of its Transactions together with the Entry record. -/
def deleteJournalEntry (db : DB) (epk : Nat) : DB :=
  { db with
    journalEntries := db.journalEntries.filter (fun j => j.pk != epk),
    txns := db.txns.filter (fun t => t.journal_entry != some epk) }

/-- Delete branch of add_bank_entry lines 218 to 224: the main transaction is
deleted explicitly at line 221, then the entry at line 222; the cascade to
the detail transactions is modelled from the spec as for
deleteJournalEntry. -/
def deleteBankEntry (db : DB) (v : BankVariant) (epk : Nat) : DB :=
  match (bankEntries db v).find? (fun b => b.pk == epk) with
  | none => db
  | some be =>
    match v with
    | BankVariant.spending =>
      { db with
        bankSpendEntries := db.bankSpendEntries.filter (fun b => b.pk != epk),
        txns := (db.txns.filter (fun t => t.pk != be.main_transaction)).filter
          (fun t => t.bankspend_entry != some epk) }
    | BankVariant.receiving =>
      { db with
        bankReceiveEntries := db.bankReceiveEntries.filter (fun b => b.pk != epk),
        txns := (db.txns.filter (fun t => t.pk != be.main_transaction)).filter
          (fun t => t.bankreceive_entry != some epk) }

theorem filter_all_true {α : Type} (p : α → Bool) (l : List α) (h : ∀ x ∈ l, p x = true) :
    l.filter p = l := by
  induction l with
  | nil => rfl
  | cons a l ih =>
    rw [List.filter_cons, if_pos (h a (List.mem_cons_self a l)),
      ih (fun x hx => h x (List.mem_cons_of_mem a hx))]

theorem filter_all_false {α : Type} (p : α → Bool) (l : List α) (h : ∀ x ∈ l, p x = false) :
    l.filter p = [] := by
  induction l with
  | nil => rfl
  | cons a l ih =>
    rw [List.filter_cons, if_neg (by simp [h a (List.mem_cons_self a l)])]
    exact ih fun x hx => h x (List.mem_cons_of_mem a hx)

theorem find?_append_of_none {α : Type} (p : α → Bool) (l1 l2 : List α)
    (h : ∀ x ∈ l1, p x = false) : (l1 ++ l2).find? p = l2.find? p := by
  induction l1 with
  | nil => rfl
  | cons a l ih =>
    rw [List.cons_append, List.find?_cons, h a (List.mem_cons_self a l)]
    exact ih fun x hx => h x (List.mem_cons_of_mem a hx)

theorem DB_eq_of_fields (x y : DB)
    (h1 : x.journalEntries = y.journalEntries)
    (h2 : x.bankSpendEntries = y.bankSpendEntries)
    (h3 : x.bankReceiveEntries = y.bankReceiveEntries)
    (h4 : x.txns = y.txns) (h5 : x.nextPk = y.nextPk) : x = y := by
  cases x
  cases y
  congr 1

/-- C8: deleting an Entry removes the main transaction (when the variant has
one) and every Transaction of the Entry together with the Entry record; the
resulting state equals the state from before the Entry existed, so every
balance query over any range (in particular any range excluding the effect of
the Entry) returns the same results as before the Entry existed.  Shown for
the journal delete of lines 149 to 152 and the bank delete of lines 218 to
224. -/
theorem C8_delete_cascade_frame (db0 : DB) (epk d mainPk : Nat) (mrow : TxnRow)
    (ts tsB : List TxnRow)
    (hJ1 : ∀ j ∈ db0.journalEntries, j.pk ≠ epk)
    (hJ2 : ∀ t ∈ db0.txns, t.journal_entry ≠ some epk)
    (hts : ∀ t ∈ ts, t.journal_entry = some epk)
    (hB1 : ∀ b ∈ db0.bankSpendEntries, b.pk ≠ epk)
    (hB2 : ∀ t ∈ db0.txns, t.bankspend_entry ≠ some epk)
    (hBmain : ∀ t ∈ db0.txns, t.pk ≠ mainPk)
    (hmrow : mrow.pk = mainPk)
    (hBts : ∀ t ∈ tsB, t.bankspend_entry = some epk ∧ t.pk ≠ mainPk) :
    deleteJournalEntry
      { db0 with
        journalEntries := db0.journalEntries ++ [{ pk := epk, date := d }],
        txns := db0.txns ++ ts } epk = db0 ∧
    (∀ a s e0, show_account_detail
      (deleteJournalEntry
        { db0 with
          journalEntries := db0.journalEntries ++ [{ pk := epk, date := d }],
          txns := db0.txns ++ ts } epk) a s e0 = show_account_detail db0 a s e0) ∧
    deleteBankEntry
      { db0 with
        bankSpendEntries := db0.bankSpendEntries ++
          [{ pk := epk, date := d, main_transaction := mainPk }],
        txns := db0.txns ++ mrow :: tsB } BankVariant.spending epk = db0 ∧
    (∀ a s e0, show_account_detail
      (deleteBankEntry
        { db0 with
          bankSpendEntries := db0.bankSpendEntries ++
            [{ pk := epk, date := d, main_transaction := mainPk }],
          txns := db0.txns ++ mrow :: tsB } BankVariant.spending epk) a s e0 =
      show_account_detail db0 a s e0) := by
  have hje : (db0.journalEntries ++ [({ pk := epk, date := d } : JournalEntryRow)]).filter
      (fun j => j.pk != epk) = db0.journalEntries := by
    rw [List.filter_append, filter_all_true _ _ (fun j hj => by simp [hJ1 j hj]),
      filter_all_false (fun j => j.pk != epk)
        [({ pk := epk, date := d } : JournalEntryRow)]
        (fun j hj => by rcases List.mem_singleton.mp hj with rfl; simp),
      List.append_nil]
  have htx : (db0.txns ++ ts).filter (fun t => t.journal_entry != some epk) = db0.txns := by
    rw [List.filter_append, filter_all_true _ _ (fun t ht => by simp [hJ2 t ht]),
      filter_all_false (fun t => t.journal_entry != some epk) ts
        (fun t ht => by simp [hts t ht]),
      List.append_nil]
  have hdel1 : deleteJournalEntry
      { db0 with
        journalEntries := db0.journalEntries ++ [{ pk := epk, date := d }],
        txns := db0.txns ++ ts } epk = db0 := by
    apply DB_eq_of_fields
    · exact hje
    · rfl
    · rfl
    · exact htx
    · rfl
  have hfind : ((db0.bankSpendEntries ++
      [({ pk := epk, date := d, main_transaction := mainPk } : BankEntryRow)]).find?
        (fun b => b.pk == epk)) =
      some { pk := epk, date := d, main_transaction := mainPk } := by
    rw [find?_append_of_none _ _ _ (fun b hb => by simp [hB1 b hb])]
    simp
  have hbs : (db0.bankSpendEntries ++
      [({ pk := epk, date := d, main_transaction := mainPk } : BankEntryRow)]).filter
        (fun b => b.pk != epk) = db0.bankSpendEntries := by
    rw [List.filter_append, filter_all_true _ _ (fun b hb => by simp [hB1 b hb]),
      filter_all_false (fun b => b.pk != epk)
        [({ pk := epk, date := d, main_transaction := mainPk } : BankEntryRow)]
        (fun b hb => by rcases List.mem_singleton.mp hb with rfl; simp),
      List.append_nil]
  have htx1 : (db0.txns ++ mrow :: tsB).filter (fun t => t.pk != mainPk) =
      db0.txns ++ tsB := by
    rw [List.filter_append, filter_all_true _ _ (fun t ht => by simp [hBmain t ht]),
      List.filter_cons, if_neg (by simp [hmrow]),
      filter_all_true _ _ (fun t ht => by simp [(hBts t ht).2])]
  have htx2 : (db0.txns ++ tsB).filter (fun t => t.bankspend_entry != some epk) =
      db0.txns := by
    rw [List.filter_append, filter_all_true _ _ (fun t ht => by simp [hB2 t ht]),
      filter_all_false (fun t => t.bankspend_entry != some epk) tsB
        (fun t ht => by simp [(hBts t ht).1]),
      List.append_nil]
  have htxB : ((db0.txns ++ mrow :: tsB).filter (fun t => t.pk != mainPk)).filter
      (fun t => t.bankspend_entry != some epk) = db0.txns := by
    rw [htx1, htx2]
  have hdel2 : deleteBankEntry
      { db0 with
        bankSpendEntries := db0.bankSpendEntries ++
          [{ pk := epk, date := d, main_transaction := mainPk }],
        txns := db0.txns ++ mrow :: tsB } BankVariant.spending epk = db0 := by
    unfold deleteBankEntry
    have hred : bankEntries
        { db0 with
          bankSpendEntries := db0.bankSpendEntries ++
            [{ pk := epk, date := d, main_transaction := mainPk }],
          txns := db0.txns ++ mrow :: tsB } BankVariant.spending =
        db0.bankSpendEntries ++
          [({ pk := epk, date := d, main_transaction := mainPk } : BankEntryRow)] := rfl
    rw [hred, hfind]
    apply DB_eq_of_fields
    · rfl
    · exact hbs
    · rfl
    · exact htxB
    · rfl
  exact ⟨hdel1, fun a s e0 => by rw [hdel1], hdel2, fun a s e0 => by rw [hdel2]⟩

/-- Main transaction of the deleted bank entry in the C8 witness. -/
def mrowW : TxnRow := { pk := 50, account := 4, balance_delta := 77, detail := "mm" }

/-- Journal transactions of the deleted entry in the C8 witness. -/
def tsW : List TxnRow :=
  [{ pk := 40, account := 1, balance_delta := 5, detail := "t", journal_entry := some 9 }]

/-- Bank detail transactions of the deleted entry in the C8 witness. -/
def tsBW : List TxnRow :=
  [{ pk := 41, account := 4, balance_delta := -77, detail := "dd", bankspend_entry := some 9 }]

theorem C8_delete_cascade_frame_witness :
    deleteJournalEntry
      { dbBal with
        journalEntries := dbBal.journalEntries ++ [{ pk := 9, date := 12 }],
        txns := dbBal.txns ++ tsW } 9 = dbBal ∧
    (∀ a s e0, show_account_detail
      (deleteJournalEntry
        { dbBal with
          journalEntries := dbBal.journalEntries ++ [{ pk := 9, date := 12 }],
          txns := dbBal.txns ++ tsW } 9) a s e0 = show_account_detail dbBal a s e0) ∧
    deleteBankEntry
      { dbBal with
        bankSpendEntries := dbBal.bankSpendEntries ++
          [{ pk := 9, date := 12, main_transaction := 50 }],
        txns := dbBal.txns ++ mrowW :: tsBW } BankVariant.spending 9 = dbBal ∧
    (∀ a s e0, show_account_detail
      (deleteBankEntry
        { dbBal with
          bankSpendEntries := dbBal.bankSpendEntries ++
            [{ pk := 9, date := 12, main_transaction := 50 }],
          txns := dbBal.txns ++ mrowW :: tsBW } BankVariant.spending 9) a s e0 =
      show_account_detail dbBal a s e0) :=
  C8_delete_cascade_frame dbBal 9 12 50 mrowW tsW tsBW (by decide) (by decide) (by decide)
    (by decide) (by decide) (by decide) (by decide) (by decide)

/-- Value held by the date attribute of an unsaved model instance: either an
actual date object or a function object that was assigned without being
called. -/
inductive DateAttr
  | dateVal (ordinal : Nat)
  | functionObject (qualifiedName : String)
  deriving DecidableEq, Repr

/-- Unsaved entry as constructed by the add views before a POST arrives: no
primary key and whatever the date attribute was assigned. -/
structure UnsavedEntry where
  pk : Option Nat
  date : DateAttr
  deriving DecidableEq, Repr

/-- Construction of the fresh JournalEntry of add_journal_entry lines 124 to
125: the assignment entry.date = datetime.date.today stores the attribute
datetime.date.today itself, with no call parentheses. -/
def add_journal_entry_newEntry : UnsavedEntry :=
  { pk := none, date := DateAttr.functionObject "datetime.date.today" }

/-- Construction of the fresh bank entry of add_bank_entry lines 186 to 187:
the same uncalled assignment entry.date = datetime.date.today. -/
def add_bank_entry_newEntry (v : BankVariant) : UnsavedEntry :=
  match v with
  | BankVariant.spending => { pk := none, date := DateAttr.functionObject "datetime.date.today" }
  | BankVariant.receiving => { pk := none, date := DateAttr.functionObject "datetime.date.today" }

/-- Construction of the fresh JournalEntry of add_transfer_entry lines 246 to
247: the same uncalled assignment entry.date = datetime.date.today. -/
def add_transfer_entry_newEntry : UnsavedEntry :=
  { pk := none, date := DateAttr.functionObject "datetime.date.today" }

/-- C9: in the general-journal save path the three branches that would attach
a saved line to its owning entry compare the formset instance attribute,
which holds the JournalEntry object, to formset classes with the Python
identity operator, and the second and third branch both test
BankReceivingTransactionFormSet, so every identity test is false and the loop
never assigns journal_entry, bankspend_entry or bankreceive_entry: a line is
persisted with its entry-reference fields exactly as the formset machinery
left them, while balance_delta is set from the cleaned data. -/
theorem C9_dead_branches_preserve_entry_refs (entryPkVal : Nat) (f : TxnFormData) (row : TxnRow) :
    pyIs (PyObj.journalEntryInstance (some entryPkVal)) PyObj.transactionFormSetClass = false ∧
    pyIs (PyObj.journalEntryInstance (some entryPkVal))
      PyObj.bankReceivingTransactionFormSetClass = false ∧
    (journalLoopBody entryPkVal f row).journal_entry = row.journal_entry ∧
    (journalLoopBody entryPkVal f row).bankspend_entry = row.bankspend_entry ∧
    (journalLoopBody entryPkVal f row).bankreceive_entry = row.bankreceive_entry ∧
    (journalLoopBody entryPkVal f row).balance_delta = f.balance_delta := by
  refine ⟨rfl, rfl, ?_, ?_, ?_, ?_⟩ <;> simp [journalLoopBody, pyIs]

/-- C10: every newly constructed, not yet persisted entry of the three add
views has its date attribute assigned the function object datetime.date.today
itself; the function is never called, so the attribute does not hold the
current calendar date value, whatever that date is. -/
theorem C10_date_assigned_function_object (today : Nat) :
    add_journal_entry_newEntry.date = DateAttr.functionObject "datetime.date.today" ∧
    add_journal_entry_newEntry.date ≠ DateAttr.dateVal today ∧
    (add_bank_entry_newEntry BankVariant.spending).date
      = DateAttr.functionObject "datetime.date.today" ∧
    (add_bank_entry_newEntry BankVariant.spending).date ≠ DateAttr.dateVal today ∧
    (add_bank_entry_newEntry BankVariant.receiving).date
      = DateAttr.functionObject "datetime.date.today" ∧
    (add_bank_entry_newEntry BankVariant.receiving).date ≠ DateAttr.dateVal today ∧
    add_transfer_entry_newEntry.date = DateAttr.functionObject "datetime.date.today" ∧
    add_transfer_entry_newEntry.date ≠ DateAttr.dateVal today := by
  refine ⟨rfl, ?_, rfl, ?_, rfl, ?_, rfl, ?_⟩ <;>
    simp [add_journal_entry_newEntry, add_bank_entry_newEntry, add_transfer_entry_newEntry]

end Acorn
